import Mathlib

set_option autoImplicit false

/-!
Shallow embedding of the `fastrace-google-cloud` span-reporting adapter
(`src/lib.rs`, with the dead sibling module `src/opentelemetry.rs`): the data
model, property conversion, span translation and the reporting entry point,
together with theorems checking the repository's specification claims.

External collaborators (the `fastrace` record types, the
`google-cloud-trace-v2` generated model types and the `google-cloud-wkt`
timestamp) are embedded from their published contracts; each such definition
says so in its doc comment.
-/

universe u

/-- Association-list model of Rust's `std::collections::HashMap` with `String`
keys.  A `HashMap`'s iteration order is unspecified, so only the key-to-value
lookup behaviour is observable; we keep the newest binding at the head. -/
abbrev Smap (α : Type u) : Type u := List (String × α)

/-- Models `HashMap::get`: the value bound to `k`, if any. -/
def Smap.findKV {α : Type u} : Smap α → String → Option α
  | [], _ => none
  | p :: rest, k => if p.1 = k then some p.2 else Smap.findKV rest k

/-- Drops every binding whose key is `k` (helper for insertion/removal). -/
def Smap.eraseKey {α : Type u} : Smap α → String → Smap α
  | [], _ => []
  | p :: rest, k =>
    if p.1 = k then Smap.eraseKey rest k else p :: Smap.eraseKey rest k

/-- Models `HashMap::insert`: any existing binding for `k` is replaced. -/
def Smap.insertKV {α : Type u} (m : Smap α) (k : String) (v : α) : Smap α :=
  (k, v) :: m.eraseKey k

/-- Models `HashMap::remove`: the removed value (if any) and the rest of the
map. -/
def Smap.removeKV {α : Type u} (m : Smap α) (k : String) : Option α × Smap α :=
  (m.findKV k, m.eraseKey k)

/-- Models `HashMap::extend` over a sequence of pairs: each pair is inserted
in order, so on a key collision the later pair wins. -/
def Smap.extendKV {α : Type u} (m : Smap α) (l : List (String × α)) : Smap α :=
  l.foldl (fun acc p => acc.insertKV p.1 p.2) m

/-- Models `HashMap::from([...])`: sequential insertion starting from the
empty map (a duplicated key in the array keeps the later value). -/
def Smap.ofPairs {α : Type u} (l : List (String × α)) : Smap α :=
  Smap.extendKV [] l

/-- The value of the last pair of `l` whose key is `k`, if any: the binding
that survives `Smap.extendKV` for key `k`. -/
def Smap.lastV {α : Type u} : List (String × α) → String → Option α
  | [], _ => none
  | p :: rest, k =>
    match Smap.lastV rest k with
    | some v => some v
    | none => if p.1 = k then some p.2 else none

/-- Embedded from `google-cloud-trace-v2`:
`google_cloud_trace_v2::model::TruncatableString` (a string plus the number
of bytes removed by truncation; the adapter never truncates). -/
structure TruncatableString where
  value : String
  truncated_byte_count : Int := 0
deriving DecidableEq

/-- Embedded from `google-cloud-trace-v2`:
`google_cloud_trace_v2::model::AttributeValue`, a oneof over string, integer
and boolean payloads. -/
inductive AttributeValue
  | string_value (s : TruncatableString)
  | int_value (i : Int)
  | bool_value (b : Bool)
deriving DecidableEq

/-- Models the generated accessor `AttributeValue::string_value()`, which
returns the string payload only when the oneof holds one. -/
def AttributeValue.stringValue : AttributeValue → Option TruncatableString
  | .string_value s => some s
  | _ => none

/-- Shorthand for the string-typed attribute values the adapter builds:
`AttributeValue::new().set_string_value(TruncatableString::new().set_value(v))`. -/
def strAttr (v : String) : AttributeValue :=
  AttributeValue.string_value { value := v }

/-- Embedded from `google-cloud-trace-v2`:
`google_cloud_trace_v2::model::span::SpanKind`.  The generated enum keeps
unrecognized wire values in an `UnknownValue` payload. -/
inductive SpanKind
  | Unspecified
  | Internal
  | Server
  | Client
  | Producer
  | Consumer
  | UnknownValue (value : String)
deriving DecidableEq

/-- Embedded from `google-cloud-trace-v2`: the generated
`impl From<&str> for SpanKind`, which matches the protobuf wire names of the
enum values and wraps anything else as an unknown value. -/
def SpanKind.fromStr (value : String) : SpanKind :=
  if value = "SPAN_KIND_UNSPECIFIED" then .Unspecified
  else if value = "INTERNAL" then .Internal
  else if value = "SERVER" then .Server
  else if value = "CLIENT" then .Client
  else if value = "PRODUCER" then .Producer
  else if value = "CONSUMER" then .Consumer
  else .UnknownValue value

/-- Embedded from `google-cloud-rpc`: `google_cloud_rpc::model::Status`
(code plus message; the `details` payload is never produced here). -/
structure Status where
  code : Int := 0
  message : String := ""
deriving DecidableEq

/-- Embedded from `google-cloud-trace-v2`:
`google_cloud_trace_v2::model::StackTrace`.  The adapter's default converter
never constructs one, so only its identity matters; we keep an opaque tag. -/
structure StackTrace where
  stack_trace_hash_id : Int := 0
deriving DecidableEq

/-- Embedded from `google-cloud-wkt`: `google_cloud_wkt::Timestamp`
(seconds since the Unix epoch plus a nanosecond component). -/
structure Timestamp where
  seconds : Int
  nanos : Int
deriving DecidableEq

/-- Smallest representable `Timestamp` second (0001-01-01T00:00:00Z). -/
def Timestamp.minSeconds : Int := -62135596800

/-- Largest representable `Timestamp` second (9999-12-31T23:59:59Z). -/
def Timestamp.maxSeconds : Int := 253402300799

/-- Embedded from `google-cloud-wkt`: `Timestamp::clamp(seconds, nanos)`.
Out-of-range nanoseconds are carried into the seconds; the result is then
clamped to the representable range. -/
def Timestamp.clamp (seconds : Int) (nanos : Int) : Timestamp :=
  let carry := nanos / 1000000000
  let ns := nanos % 1000000000
  let secs := seconds + carry
  if secs < Timestamp.minSeconds then { seconds := Timestamp.minSeconds, nanos := 0 }
  else if Timestamp.maxSeconds < secs then { seconds := Timestamp.maxSeconds, nanos := 999999999 }
  else { seconds := secs, nanos := ns }

/-- Rust's `as i64` cast applied to a `u64` value (represented as a `Nat`
below `2^64`): values at or above `2^63` wrap to negative. -/
def u64_as_i64 (n : Nat) : Int :=
  if n % 2 ^ 64 < 2 ^ 63 then ((n % 2 ^ 64 : Nat) : Int)
  else ((n % 2 ^ 64 : Nat) : Int) - 2 ^ 64

/-- Rust's `as i32` cast applied to a `u64` value: truncation to the low 32
bits, then two's-complement reinterpretation. -/
def u64_as_i32 (n : Nat) : Int :=
  if n % 2 ^ 32 < 2 ^ 31 then ((n % 2 ^ 32 : Nat) : Int)
  else ((n % 2 ^ 32 : Nat) : Int) - 2 ^ 32

/-- Embedded from `src/lib.rs`: `convert_unix_ns`, splitting a `u64`
nanosecond-since-epoch value into seconds and nanoseconds and clamping. -/
def convert_unix_ns (unix_time : Nat) : Timestamp :=
  Timestamp.clamp (u64_as_i64 (unix_time / 1000000000)) (u64_as_i32 (unix_time % 1000000000))

/-- Lowercase hexadecimal rendering of `n`, zero-padded on the left to at
least `width` digits (Rust's `{:0widthx}` format). -/
def hexPadLower (width : Nat) (n : Nat) : String :=
  let ds := Nat.toDigits 16 n
  String.mk (List.replicate (width - ds.length) '0' ++ ds)

/-- Embedded from `fastrace`: `impl Display for SpanId` renders the `u64` as
16 zero-padded lowercase hex digits (the W3C / Cloud Trace span-id form). -/
def SpanId.display (id : Nat) : String := hexPadLower 16 id

/-- Embedded from `fastrace`: `impl Display for TraceId` renders the `u128`
as 32 zero-padded lowercase hex digits. -/
def TraceId.display (id : Nat) : String := hexPadLower 32 id

/-- Embedded from `fastrace`: `fastrace::collector::EventRecord`.
`Cow<str>` keys and values are plain strings here. -/
structure EventRecord where
  name : String
  timestamp_unix_ns : Nat
  properties : List (String × String)
deriving DecidableEq

/-- Embedded from `fastrace`: `fastrace::prelude::SpanRecord`.  Ids are the
underlying unsigned integers (`trace_id : u128`, `span_id parent_id : u64`). -/
structure SpanRecord where
  trace_id : Nat
  span_id : Nat
  parent_id : Nat
  begin_time_unix_ns : Nat
  duration_ns : Nat
  name : String
  properties : List (String × String)
  events : List EventRecord
deriving DecidableEq

/-- Embedded from `google-cloud-trace-v2`: the annotation payload of a time
event (attributes plus a description). -/
structure AnnotationData where
  attribute_map : Smap AttributeValue
  description : TruncatableString
deriving DecidableEq

/-- Embedded from `google-cloud-trace-v2`:
`google_cloud_trace_v2::model::span::TimeEvent` restricted to the annotation
variant the adapter produces. -/
structure TimeEvent where
  time : Timestamp
  annot : AnnotationData
deriving DecidableEq

/-- Embedded from `google-cloud-trace-v2`:
`google_cloud_trace_v2::model::span::Attributes` (the attribute map; the
adapter never sets `dropped_attributes_count`). -/
structure Attributes where
  attribute_map : Smap AttributeValue
deriving DecidableEq

/-- Embedded from `google-cloud-trace-v2`:
`google_cloud_trace_v2::model::Span`.  Builder setters become record fields;
`parent_span_id` is `none` when the setter was never called (proto default). -/
structure GoogleSpan where
  name : String
  span_id : String
  parent_span_id : Option String := none
  display_name : TruncatableString
  start_time : Timestamp
  end_time : Timestamp
  attributes : Attributes
  status : Option Status
  span_kind : SpanKind
  stack_trace : Option StackTrace
  time_events : List TimeEvent
deriving DecidableEq

/-- Opaque handle standing for the external
`google_cloud_trace_v2::client::TraceService` client. -/
structure TraceService where
  handle : Nat := 0
deriving DecidableEq

/-- Type of the configurable status converter slot. -/
abbrev StatusConverter :=
  SpanRecord → Smap AttributeValue → Option Status × Smap AttributeValue

/-- Type of the configurable span-kind converter slot. -/
abbrev SpanKindConverter :=
  SpanRecord → Smap AttributeValue → SpanKind × Smap AttributeValue

/-- Type of the configurable stack-trace converter slot. -/
abbrev StackTraceConverter :=
  SpanRecord → Smap AttributeValue → Option StackTrace × Smap AttributeValue

/-- Embedded from `src/lib.rs`: `default_span_kind_converter`.  It removes
the `span.kind` entry from the attribute map; a string payload is parsed via
`SpanKind::from(&str)`, and an absent or non-string entry falls back to
`Internal`.  Rust's `&mut` map becomes explicit state passing. -/
def default_span_kind_converter : SpanKindConverter := fun _span_record attribute_map =>
  let removed := Smap.removeKV attribute_map "span.kind"
  let kind :=
    match removed.1 with
    | some v =>
      match v.stringValue with
      | some s => SpanKind.fromStr s.value
      | none => SpanKind.Internal
    | none => SpanKind.Internal
  (kind, removed.2)

/-- Embedded from `src/lib.rs`: the default status converter `|_, _| None`. -/
def defaultStatusConverter : StatusConverter := fun _ m => (none, m)

/-- Embedded from `src/lib.rs`: the default stack-trace converter
`|_, _| None`. -/
def defaultStackTraceConverter : StackTraceConverter := fun _ m => (none, m)

/-- Embedded from `src/lib.rs`: the `GoogleCloudReporter` configuration state
(the lazily built Tokio runtime carries no observable data and is omitted). -/
structure GoogleCloudReporter where
  client : TraceService
  trace_project_id : String
  service_name : Option String
  attribute_name_mappings : Option (Smap String)
  status_converter : StatusConverter
  span_kind_converter : SpanKindConverter
  stack_trace_converter : StackTraceConverter

/-- Outcome of running a Rust construction path: a value, a returned error,
or a panic (`unwrap` on an `Err`). -/
inductive ConstructionOutcome (α : Type u)
  | ok (value : α)
  | err (error : String)
  | panicked (message : String)

/-- Models `Result::unwrap()`: the payload, or a panic carrying the error. -/
def unwrapExcept {α : Type u} : Except String α → ConstructionOutcome α
  | .ok a => .ok a
  | .error e => .panicked e

/-- Embedded from `src/lib.rs`: `default_trace_client`.  The outcome of the
external builder (`TraceService::builder()...build().await`) is the
`buildResult` argument; the source applies `.unwrap()` to it. -/
def default_trace_client (buildResult : Except String TraceService) :
    ConstructionOutcome TraceService :=
  unwrapExcept buildResult

/-- Embedded from `src/lib.rs`: the `#[builder] GoogleCloudReporter::new`
constructor.  `client.unwrap_or(default_trace_client().await)` evaluates the
default client eagerly, so its panic (if any) happens before the option is
consulted; every optional slot falls back to its default. -/
def GoogleCloudReporter.new (client : Option TraceService)
    (buildResult : Except String TraceService)
    (trace_project_id : String) (service_name : Option String)
    (attribute_name_mappings : Option (Smap String))
    (status_converter : Option StatusConverter)
    (span_kind_converter : Option SpanKindConverter)
    (stack_trace_converter : Option StackTraceConverter) :
    ConstructionOutcome GoogleCloudReporter :=
  match default_trace_client buildResult with
  | .panicked e => .panicked e
  | .err e => .err e
  | .ok default_client =>
    .ok
      { client := client.getD default_client
        trace_project_id := trace_project_id
        service_name := service_name
        attribute_name_mappings := attribute_name_mappings
        status_converter := status_converter.getD defaultStatusConverter
        span_kind_converter := span_kind_converter.getD default_span_kind_converter
        stack_trace_converter := stack_trace_converter.getD defaultStackTraceConverter }

/-- The key a property key `k` is stored under: its image in the mapping
table when present, otherwise `k` itself
(`mappings.and_then(|m| m.get(k)).unwrap_or(k)` in `convert_properties`). -/
def mappedKey (mappings : Option (Smap String)) (k : String) : String :=
  (mappings.bind (fun m => Smap.findKV m k)).getD k

/-- The pair list `convert_properties` feeds to `HashMap::extend`: each
property key rewritten through the mapping table, each value wrapped as a
string attribute. -/
def mappedProps (mappings : Option (Smap String))
    (props : List (String × String)) : List (String × AttributeValue) :=
  props.map (fun p => (mappedKey mappings p.1, strAttr p.2))

/-- Embedded from `src/lib.rs`: `GoogleCloudReporter::convert_properties`.
A configured service name is inserted first; the (mapped) properties are then
merged on top, so a colliding property key overwrites the synthetic entry. -/
def GoogleCloudReporter.convert_properties (self : GoogleCloudReporter)
    (properties : List (String × String))
    (attribute_name_mappings : Option (Smap String)) : Attributes :=
  let base : Smap AttributeValue :=
    match self.service_name with
    | some service_name => Smap.insertKV [] "service.name" (strAttr service_name)
    | none => []
  { attribute_map := Smap.extendKV base (mappedProps attribute_name_mappings properties) }

/-- Embedded from `src/lib.rs`: `convert_parent_span_id`
(`(span_id.0 != 0).then_some(span_id.to_string())`). -/
def convert_parent_span_id (span_id : Nat) : Option String :=
  if span_id ≠ 0 then some (SpanId.display span_id) else none

/-- Embedded from `src/lib.rs`: `GoogleCloudReporter::convert_event`. -/
def GoogleCloudReporter.convert_event (self : GoogleCloudReporter)
    (event : EventRecord) : TimeEvent :=
  { time := convert_unix_ns event.timestamp_unix_ns
    annot :=
      { attribute_map :=
          (self.convert_properties event.properties self.attribute_name_mappings).attribute_map
        description := { value := event.name } } }

/-- Embedded from `src/lib.rs`: `GoogleCloudReporter::convert_span`.  The
three converter slots run in order (status, span kind, stack trace), each
threading the attribute map; `begin + duration` wraps as `u64` addition. -/
def GoogleCloudReporter.convert_span (self : GoogleCloudReporter)
    (span : SpanRecord) : GoogleSpan :=
  let span_id := SpanId.display span.span_id
  let attributes0 := self.convert_properties span.properties self.attribute_name_mappings
  let statusStep := self.status_converter span attributes0.attribute_map
  let kindStep := self.span_kind_converter span statusStep.2
  let stackStep := self.stack_trace_converter span kindStep.2
  let base : GoogleSpan :=
    { name := "projects/" ++ self.trace_project_id ++ "/traces/"
        ++ TraceId.display span.trace_id ++ "/spans/" ++ span_id
      span_id := span_id
      display_name := { value := span.name }
      start_time := convert_unix_ns span.begin_time_unix_ns
      end_time := convert_unix_ns ((span.begin_time_unix_ns + span.duration_ns) % 2 ^ 64)
      attributes := { attribute_map := stackStep.2 }
      status := statusStep.1
      span_kind := kindStep.1
      stack_trace := stackStep.1
      time_events := span.events.map (fun e => self.convert_event e) }
  match convert_parent_span_id span.parent_id with
  | some parent_span_id => { base with parent_span_id := some parent_span_id }
  | none => base

/-- One backend `batch_write_spans` RPC as issued by `try_report`: the
destination resource name and the translated spans. -/
structure BatchWriteCall where
  name : String
  spans : List GoogleSpan
deriving DecidableEq

/-- Embedded from `src/lib.rs`: `GoogleCloudReporter::try_report` builds the
single batch-write call (its network outcome is supplied by the caller's
environment in `report`). -/
def GoogleCloudReporter.try_report (self : GoogleCloudReporter)
    (spans : List SpanRecord) : BatchWriteCall :=
  { name := "projects/" ++ self.trace_project_id
    spans := spans.map (fun s => self.convert_span s) }

/-- One emitted log line with its severity. -/
structure LogRecord where
  level : String
  message : String
deriving DecidableEq

/-- Observable effects of one `report` invocation: the backend calls issued
and the log lines emitted.  `report` returns `()` in the source, so there is
deliberately no error component. -/
structure ReportResult where
  calls : List BatchWriteCall
  logs : List LogRecord
deriving DecidableEq

/-- Embedded from `src/lib.rs`: `Reporter::report for GoogleCloudReporter`.
An empty batch returns immediately; otherwise `try_report` issues one
batch-write call whose network outcome is `sendResult`, and a failure is
logged via `log::error!` and discarded. -/
def GoogleCloudReporter.report (self : GoogleCloudReporter)
    (spans : List SpanRecord) (sendResult : Except String Unit) : ReportResult :=
  if spans.isEmpty then { calls := [], logs := [] }
  else
    { calls := [self.try_report spans]
      logs :=
        match sendResult with
        | .ok _ => []
        | .error err =>
          [{ level := "ERROR"
             message := "report to Google Cloud Trace failed: " ++ err }] }

/-- Key constants of `opentelemetry_semantic_conventions::attribute` used by
the mapping tables (their published string values). -/
def OTEL_COMPONENT_TYPE : String := "otel.component.type"

/-- `attribute::EXCEPTION_MESSAGE`. -/
def EXCEPTION_MESSAGE : String := "exception.message"

/-- `attribute::EXCEPTION_TYPE`. -/
def EXCEPTION_TYPE : String := "exception.type"

/-- `attribute::NETWORK_PROTOCOL_VERSION`. -/
def NETWORK_PROTOCOL_VERSION : String := "network.protocol.version"

/-- `attribute::SERVER_ADDRESS`. -/
def SERVER_ADDRESS : String := "server.address"

/-- `attribute::CLIENT_ADDRESS`. -/
def CLIENT_ADDRESS : String := "client.address"

/-- `attribute::HTTP_HOST` (deprecated convention key). -/
def HTTP_HOST : String := "http.host"

/-- `attribute::HTTP_METHOD` (deprecated convention key). -/
def HTTP_METHOD : String := "http.method"

/-- `attribute::HTTP_REQUEST_METHOD`. -/
def HTTP_REQUEST_METHOD : String := "http.request.method"

/-- `attribute::URL_PATH`. -/
def URL_PATH : String := "url.path"

/-- `attribute::HTTP_REQUEST_SIZE`. -/
def HTTP_REQUEST_SIZE : String := "http.request.size"

/-- `attribute::HTTP_RESPONSE_SIZE`. -/
def HTTP_RESPONSE_SIZE : String := "http.response.size"

/-- `attribute::HTTP_ROUTE`. -/
def HTTP_ROUTE : String := "http.route"

/-- `attribute::HTTP_RESPONSE_STATUS_CODE`. -/
def HTTP_RESPONSE_STATUS_CODE : String := "http.response.status_code"

/-- `attribute::HTTP_STATUS_CODE` (deprecated convention key). -/
def HTTP_STATUS_CODE : String := "http.status_code"

/-- `attribute::HTTP_USER_AGENT` (deprecated convention key). -/
def HTTP_USER_AGENT : String := "http.user_agent"

/-- `attribute::USER_AGENT_ORIGINAL`. -/
def USER_AGENT_ORIGINAL : String := "user_agent.original"

/-- `attribute::K8S_CLUSTER_NAME`. -/
def K8S_CLUSTER_NAME : String := "k8s.cluster.name"

/-- `attribute::K8S_NAMESPACE_NAME`. -/
def K8S_NAMESPACE_NAME : String := "k8s.namespace.name"

/-- `attribute::K8S_POD_NAME`. -/
def K8S_POD_NAME : String := "k8s.pod.name"

/-- `attribute::K8S_CONTAINER_NAME`. -/
def K8S_CONTAINER_NAME : String := "k8s.container.name"

/-- Embedded from `src/lib.rs` lines 102-141: the crate's live
`opentelemetry_semantic_mapping` (`src/opentelemetry.rs` is not declared as a
module of the crate).  Note the array lists `EXCEPTION_MESSAGE` twice — once
for `/error/message` and once for `/error/name` — and never lists
`EXCEPTION_TYPE`; `HashMap::from` keeps the later binding. -/
def opentelemetry_semantic_mapping : Smap String :=
  Smap.ofPairs
    [(OTEL_COMPONENT_TYPE, "/component"),
     (EXCEPTION_MESSAGE, "/error/message"),
     (EXCEPTION_MESSAGE, "/error/name"),
     (NETWORK_PROTOCOL_VERSION, "/http/client_protocol"),
     (HTTP_HOST, "/http/host"),
     (HTTP_METHOD, "/http/method"),
     (HTTP_REQUEST_METHOD, "/http/method"),
     ("http.path", "/http/path"),
     (URL_PATH, "/http/path"),
     (HTTP_REQUEST_SIZE, "/http/request/size"),
     (HTTP_RESPONSE_SIZE, "/http/response/size"),
     (HTTP_ROUTE, "/http/route"),
     (HTTP_RESPONSE_STATUS_CODE, "/http/status_code"),
     (HTTP_STATUS_CODE, "/http/status_code"),
     (HTTP_USER_AGENT, "/http/user_agent"),
     (USER_AGENT_ORIGINAL, "/http/user_agent"),
     (K8S_CLUSTER_NAME, "g.co/r/k8s_container/cluster_name"),
     (K8S_NAMESPACE_NAME, "g.co/r/k8s_container/namespace"),
     (K8S_POD_NAME, "g.co/r/k8s_container/pod_name"),
     (K8S_CONTAINER_NAME, "g.co/r/k8s_container/container_name")]

/-- Embedded from `src/opentelemetry.rs` lines 23-58: the sibling module's
version of the table, which maps `EXCEPTION_TYPE` to `/error/name` (and also
covers `SERVER_ADDRESS` / `CLIENT_ADDRESS`). -/
def opentelemetry_semantic_mapping_module : Smap String :=
  Smap.ofPairs
    [(OTEL_COMPONENT_TYPE, "/component"),
     (EXCEPTION_MESSAGE, "/error/message"),
     (EXCEPTION_TYPE, "/error/name"),
     (NETWORK_PROTOCOL_VERSION, "/http/client_protocol"),
     (SERVER_ADDRESS, "/http/host"),
     (CLIENT_ADDRESS, "/http/host"),
     (HTTP_HOST, "/http/host"),
     (HTTP_METHOD, "/http/method"),
     (HTTP_REQUEST_METHOD, "/http/method"),
     ("http.path", "/http/path"),
     (URL_PATH, "/http/path"),
     (HTTP_REQUEST_SIZE, "/http/request/size"),
     (HTTP_RESPONSE_SIZE, "/http/response/size"),
     (HTTP_ROUTE, "/http/route"),
     (HTTP_RESPONSE_STATUS_CODE, "/http/status_code"),
     (HTTP_STATUS_CODE, "/http/status_code"),
     (HTTP_USER_AGENT, "/http/user_agent"),
     (USER_AGENT_ORIGINAL, "/http/user_agent"),
     (K8S_CLUSTER_NAME, "g.co/r/k8s_container/cluster_name"),
     (K8S_NAMESPACE_NAME, "g.co/r/k8s_container/namespace"),
     (K8S_POD_NAME, "g.co/r/k8s_container/pod_name"),
     (K8S_CONTAINER_NAME, "g.co/r/k8s_container/container_name")]

/-- The key under which the last property of `props` mapping (via `mappings`)
to final key `k` stores its value: the property value that survives the
`HashMap::extend` in `convert_properties` for key `k`, if any. -/
def lastPropValue (mappings : Option (Smap String)) :
    List (String × String) → String → Option String
  | [], _ => none
  | p :: rest, k =>
    match lastPropValue mappings rest k with
    | some v => some v
    | none => if mappedKey mappings p.1 = k then some p.2 else none

/-- A concrete reporter with the default converter slots, used to instantiate
the theorems below on concrete inputs. -/
def mkReporter (service_name : Option String)
    (attribute_name_mappings : Option (Smap String)) : GoogleCloudReporter :=
  { client := {}
    trace_project_id := "p"
    service_name := service_name
    attribute_name_mappings := attribute_name_mappings
    status_converter := defaultStatusConverter
    span_kind_converter := default_span_kind_converter
    stack_trace_converter := defaultStackTraceConverter }

/-- A concrete span record used to instantiate the theorems below. -/
def mkSpan (parent_id : Nat) (properties : List (String × String)) : SpanRecord :=
  { trace_id := 1
    span_id := 42
    parent_id := parent_id
    begin_time_unix_ns := 0
    duration_ns := 1000000000
    name := "simple"
    properties := properties
    events := [] }

theorem Smap.findKV_eraseKey {α : Type u} (m : Smap α) (k k2 : String) :
    Smap.findKV (Smap.eraseKey m k) k2 = if k2 = k then none else Smap.findKV m k2 := by
  induction m with
  | nil => simp [Smap.eraseKey, Smap.findKV]
  | cons p rest ih =>
    by_cases hp : p.1 = k
    · rw [Smap.eraseKey, if_pos hp, ih]
      by_cases hk : k2 = k
      · simp [hk]
      · have hpk2 : ¬ p.1 = k2 := fun h => hk (by rw [← h, hp])
        simp [Smap.findKV, hk, hpk2]
    · rw [Smap.eraseKey, if_neg hp]
      by_cases hpk2 : p.1 = k2
      · have hk : ¬ k2 = k := fun h => hp (by rw [hpk2, h])
        simp [Smap.findKV, hpk2, hk]
      · simp [Smap.findKV, hpk2, ih]

theorem Smap.findKV_insertKV {α : Type u} (m : Smap α) (k : String) (v : α) (k2 : String) :
    Smap.findKV (Smap.insertKV m k v) k2 = if k = k2 then some v else Smap.findKV m k2 := by
  rw [Smap.insertKV, Smap.findKV]
  by_cases h : k = k2
  · simp [h]
  · have hk2 : ¬ k2 = k := fun hh => h hh.symm
    simp [h, Smap.findKV_eraseKey, hk2]

theorem Smap.findKV_extendKV {α : Type u} (m : Smap α) (l : List (String × α)) (k : String) :
    Smap.findKV (Smap.extendKV m l) k = (Smap.lastV l k).or (Smap.findKV m k) := by
  induction l generalizing m with
  | nil => rfl
  | cons p rest ih =>
    rw [Smap.extendKV, List.foldl_cons, ← Smap.extendKV, ih, Smap.findKV_insertKV]
    rw [Smap.lastV]
    cases hrest : Smap.lastV rest k with
    | some v => simp
    | none =>
      by_cases hp : p.1 = k
      · simp [hp]
      · have : ¬ k = p.1 := fun h => hp h.symm
        simp [hp, this]

theorem Smap.lastV_mappedProps (mappings : Option (Smap String))
    (props : List (String × String)) (k : String) :
    Smap.lastV (mappedProps mappings props) k
      = (lastPropValue mappings props k).map strAttr := by
  induction props with
  | nil => rfl
  | cons p rest ih =>
    rw [mappedProps, List.map_cons, ← mappedProps, Smap.lastV, lastPropValue, ih]
    cases hrest : lastPropValue mappings rest k with
    | some v => simp
    | none =>
      by_cases hp : mappedKey mappings p.1 = k <;> simp [hp]

/-- Lookup characterization of `convert_properties` when no service name is
configured: the final value for key `k` is the value of the last property
whose (table-rewritten) key is `k`, wrapped as a string attribute. -/
theorem findKV_convert_properties (r : GoogleCloudReporter)
    (props : List (String × String)) (mappings : Option (Smap String)) (k : String)
    (hsvc : r.service_name = none) :
    Smap.findKV (r.convert_properties props mappings).attribute_map k
      = (lastPropValue mappings props k).map strAttr := by
  rw [GoogleCloudReporter.convert_properties, hsvc]
  rw [Smap.findKV_extendKV, Smap.lastV_mappedProps]
  cases lastPropValue mappings props k <;> rfl

/-- C1: for every batch handed to `report`, a non-empty batch issues exactly
one backend batch-write call, and an empty batch issues zero calls
(`report` returns before contacting the client). -/
theorem report_batch_call_count (r : GoogleCloudReporter)
    (spans : List SpanRecord) (sendResult : Except String Unit) :
    (r.report spans sendResult).calls.length = if spans.isEmpty then 0 else 1 := by
  unfold GoogleCloudReporter.report
  by_cases h : spans.isEmpty
  · simp [h]
  · cases sendResult <;> simp [h]

/-- C9: `report` never propagates an error (its result type has no error
component): a failing batch-write is logged once at `ERROR` severity with the
source's message and discarded, and the calls issued do not depend on the
network outcome. -/
theorem report_swallows_send_error (r : GoogleCloudReporter)
    (spans : List SpanRecord) (e : String) :
    ((r.report spans (Except.error e)).logs
        = (if spans.isEmpty then []
           else [{ level := "ERROR",
                   message := "report to Google Cloud Trace failed: " ++ e }])
      ∧ ∀ sendResult, (r.report spans sendResult).calls
          = (r.report spans (Except.error e)).calls) := by
  constructor
  · unfold GoogleCloudReporter.report
    by_cases h : spans.isEmpty <;> simp [h]
  · intro sendResult
    unfold GoogleCloudReporter.report
    by_cases h : spans.isEmpty <;> cases sendResult <;> simp [h]

/-- C3: when no pre-built client is supplied and backend client construction
fails, `GoogleCloudReporter::new` panics (the source `unwrap`s the builder
result); the underlying error is not returned to the caller as a
construction-failure value. -/
theorem new_unwraps_client_build_error :
    (GoogleCloudReporter.new none (Except.error "invalid credentials") "p"
        none none none none none
        = ConstructionOutcome.panicked "invalid credentials"
      ∧ GoogleCloudReporter.new none (Except.error "invalid credentials") "p"
        none none none none none
        ≠ ConstructionOutcome.err "invalid credentials") :=
  ⟨rfl, fun h => nomatch h⟩

/-- C4: in the crate's live `opentelemetry_semantic_mapping` (`src/lib.rs`),
the duplicated `EXCEPTION_MESSAGE` entry makes `exception.message` map to
`/error/name` (not `/error/message`), and `exception.type` is absent; the
dead sibling table in `src/opentelemetry.rs` has the intended entries. -/
theorem opentelemetry_semantic_mapping_error_entries :
    (Smap.findKV opentelemetry_semantic_mapping EXCEPTION_MESSAGE = some "/error/name"
      ∧ Smap.findKV opentelemetry_semantic_mapping EXCEPTION_TYPE = none
      ∧ Smap.findKV opentelemetry_semantic_mapping_module EXCEPTION_MESSAGE
        = some "/error/message"
      ∧ Smap.findKV opentelemetry_semantic_mapping_module EXCEPTION_TYPE
        = some "/error/name") :=
  ⟨rfl, rfl, rfl, rfl⟩

/-- C7 (amended): a zero parent span id leaves the parent-span-id field
unset; a non-zero parent span id `N` sets it to the 16-digit zero-padded
lowercase hexadecimal rendering of `N` (fastrace's `SpanId` display form),
not its decimal form. -/
theorem convert_span_parent_linkage (r : GoogleCloudReporter) (span : SpanRecord) :
    (r.convert_span span).parent_span_id
      = if span.parent_id = 0 then none else some (SpanId.display span.parent_id) := by
  rw [GoogleCloudReporter.convert_span, convert_parent_span_id]
  by_cases h : span.parent_id = 0 <;> simp [h]

/-- C7 (counterexample): for parent span id `10`, the translated span's
parent-span-id field is the hexadecimal string `"000000000000000a"`, not the
decimal string `"10"` claimed. -/
theorem convert_parent_span_id_not_decimal_cex :
    (((mkReporter none none).convert_span (mkSpan 10 [])).parent_span_id
        = some "000000000000000a"
      ∧ ((mkReporter none none).convert_span (mkSpan 10 [])).parent_span_id
        ≠ some "10") := by
  constructor
  · rfl
  · decide

/-- C8: over the whole `u64` domain, `convert_unix_ns` yields exactly the
integer quotient by `1e9` as seconds and the remainder as nanoseconds (the
clamp to the representable timestamp range never alters these values). -/
theorem convert_unix_ns_split (n : Nat) (h : n < 2 ^ 64) :
    convert_unix_ns n
      = { seconds := ((n / 1000000000 : Nat) : Int),
          nanos := ((n % 1000000000 : Nat) : Int) } := by
  have hub : n / 1000000000 ≤ 18446744073 := by omega
  have hq64 : n / 1000000000 < 2 ^ 64 := by omega
  have hq63 : n / 1000000000 < 2 ^ 63 := by omega
  have hr : n % 1000000000 < 1000000000 := by omega
  have h1 : u64_as_i64 (n / 1000000000) = ((n / 1000000000 : Nat) : Int) := by
    rw [u64_as_i64, Nat.mod_eq_of_lt hq64, if_pos hq63]
  have h2 : u64_as_i32 (n % 1000000000) = ((n % 1000000000 : Nat) : Int) := by
    have hr32 : n % 1000000000 < 2 ^ 32 := by omega
    have hr31 : n % 1000000000 < 2 ^ 31 := by omega
    rw [u64_as_i32, Nat.mod_eq_of_lt hr32, if_pos hr31]
  rw [convert_unix_ns, h1, h2]
  simp only [Timestamp.clamp, Timestamp.minSeconds, Timestamp.maxSeconds]
  have hcarry : ((n % 1000000000 : Nat) : Int) / 1000000000 = 0 := by
    apply Int.ediv_eq_zero_of_lt <;> omega
  have hmod : ((n % 1000000000 : Nat) : Int) % 1000000000
      = ((n % 1000000000 : Nat) : Int) := by
    apply Int.emod_eq_of_lt <;> omega
  rw [hcarry, hmod, add_zero, if_neg (by omega), if_neg (by omega)]

/-- C8 (witness): `1_700_000_001_500_000_000` nanoseconds split into
`1_700_000_001` seconds and `500_000_000` nanoseconds. -/
theorem convert_unix_ns_split_witness :
    (1700000001500000000 < 2 ^ 64
      ∧ convert_unix_ns 1700000001500000000
        = { seconds := 1700000001, nanos := 500000000 }) :=
  ⟨by decide,
    (convert_unix_ns_split 1700000001500000000 (by decide)).trans (by decide)⟩

/-- C10: `convert_unix_ns` is total and lossless on `u64`: the quotient is at
most `18_446_744_073` so the `as i64` cast is the identity, and the remainder
is below `1e9` so the `as i32` cast is the identity. -/
theorem convert_unix_ns_no_truncation (n : Nat) (h : n < 2 ^ 64) :
    (n / 1000000000 ≤ 18446744073
      ∧ n % 1000000000 < 1000000000
      ∧ u64_as_i64 (n / 1000000000) = ((n / 1000000000 : Nat) : Int)
      ∧ u64_as_i32 (n % 1000000000) = ((n % 1000000000 : Nat) : Int)) := by
  have hub : n / 1000000000 ≤ 18446744073 := by omega
  have hq64 : n / 1000000000 < 2 ^ 64 := by omega
  have hq63 : n / 1000000000 < 2 ^ 63 := by omega
  refine ⟨hub, by omega, ?_, ?_⟩
  · rw [u64_as_i64, Nat.mod_eq_of_lt hq64, if_pos hq63]
  · have hr32 : n % 1000000000 < 2 ^ 32 := by omega
    have hr31 : n % 1000000000 < 2 ^ 31 := by omega
    rw [u64_as_i32, Nat.mod_eq_of_lt hr32, if_pos hr31]

/-- C10 (witness): the casts are lossless at the largest `u64` value. -/
theorem convert_unix_ns_no_truncation_witness :
    (18446744073709551615 < 2 ^ 64
      ∧ 18446744073709551615 / 1000000000 ≤ 18446744073
      ∧ u64_as_i64 (18446744073709551615 / 1000000000) = 18446744073) :=
  ⟨by decide,
    (convert_unix_ns_no_truncation 18446744073709551615 (by decide)).1,
    ((convert_unix_ns_no_truncation 18446744073709551615 (by decide)).2.2.1).trans
      (by decide)⟩

theorem default_span_kind_converter_eq (span : SpanRecord) (m : Smap AttributeValue) :
    default_span_kind_converter span m
      = ((match (Smap.findKV m "span.kind").bind AttributeValue.stringValue with
          | some s => SpanKind.fromStr s.value
          | none => SpanKind.Internal),
         Smap.eraseKey m "span.kind") := by
  unfold default_span_kind_converter Smap.removeKV
  cases hf : Smap.findKV m "span.kind" with
  | none => simp [hf]
  | some v => cases v <;> simp [hf, AttributeValue.stringValue]

theorem convert_span_default_fields (r : GoogleCloudReporter) (span : SpanRecord)
    (hkind : r.span_kind_converter = default_span_kind_converter)
    (hstatus : r.status_converter = defaultStatusConverter)
    (hstack : r.stack_trace_converter = defaultStackTraceConverter) :
    ((r.convert_span span).span_kind
        = (default_span_kind_converter span
            (r.convert_properties span.properties r.attribute_name_mappings).attribute_map).1
      ∧ (r.convert_span span).attributes.attribute_map
        = (default_span_kind_converter span
            (r.convert_properties span.properties r.attribute_name_mappings).attribute_map).2) := by
  unfold GoogleCloudReporter.convert_span
  rw [hkind, hstatus, hstack]
  simp only [defaultStatusConverter, defaultStackTraceConverter]
  constructor <;> (cases hp : convert_parent_span_id span.parent_id <;> simp [hp])

/-- C2 (amended): with the default converter slots, no mapping table and no
service name, a span whose last `span.kind` property is the wire name
`"SERVER"` translates to the `Server` span kind, a span with no `span.kind`
property translates to `Internal`, and the `span.kind` key is removed from
the final attribute map in every case. -/
theorem convert_span_default_span_kind (r : GoogleCloudReporter) (span : SpanRecord)
    (hkind : r.span_kind_converter = default_span_kind_converter)
    (hstatus : r.status_converter = defaultStatusConverter)
    (hstack : r.stack_trace_converter = defaultStackTraceConverter)
    (hmap : r.attribute_name_mappings = none)
    (hsvc : r.service_name = none) :
    ((lastPropValue none span.properties "span.kind" = some "SERVER" →
        (r.convert_span span).span_kind = SpanKind.Server)
      ∧ (lastPropValue none span.properties "span.kind" = none →
        (r.convert_span span).span_kind = SpanKind.Internal)
      ∧ Smap.findKV (r.convert_span span).attributes.attribute_map "span.kind" = none) := by
  obtain ⟨hk, hm⟩ := convert_span_default_fields r span hkind hstatus hstack
  have hfind := findKV_convert_properties r span.properties r.attribute_name_mappings
    "span.kind" hsvc
  rw [hmap] at hfind hk hm
  rw [default_span_kind_converter_eq] at hk hm
  refine ⟨?_, ?_, ?_⟩
  · intro hlast
    rw [hk, hfind, hlast]
    exact (by decide : SpanKind.fromStr "SERVER" = SpanKind.Server)
  · intro hlast
    rw [hk, hfind, hlast]
    rfl
  · rw [hm, Smap.findKV_eraseKey, if_pos rfl]

/-- C2 (counterexample): with the default span-kind converter, the property
`("span.kind", "server")` (lowercase, as the claim states it) does not yield
the `Server` kind: `SpanKind::from` only matches the wire name `"SERVER"`,
so the result is the unknown-value kind carrying `"server"`. -/
theorem convert_span_kind_lowercase_server_cex :
    (((mkReporter none none).convert_span
          (mkSpan 0 [("span.kind", "server")])).span_kind
        = SpanKind.UnknownValue "server"
      ∧ ((mkReporter none none).convert_span
          (mkSpan 0 [("span.kind", "server")])).span_kind
        ≠ SpanKind.Server) := by
  constructor
  · rfl
  · decide

/-- C2 (witness): the amended claim at a concrete span carrying
`("span.kind", "SERVER")`. -/
theorem convert_span_default_span_kind_witness :
    (lastPropValue none [("span.kind", "SERVER")] "span.kind" = some "SERVER"
      ∧ ((mkReporter none none).convert_span
          (mkSpan 0 [("span.kind", "SERVER")])).span_kind = SpanKind.Server
      ∧ Smap.findKV ((mkReporter none none).convert_span
          (mkSpan 0 [("span.kind", "SERVER")])).attributes.attribute_map
          "span.kind" = none) :=
  ⟨by decide,
    (convert_span_default_span_kind (mkReporter none none)
      (mkSpan 0 [("span.kind", "SERVER")]) rfl rfl rfl rfl rfl).1 (by decide),
    (convert_span_default_span_kind (mkReporter none none)
      (mkSpan 0 [("span.kind", "SERVER")]) rfl rfl rfl rfl rfl).2.2⟩

/-- C5: when a service name is configured, the synthetic `service.name`
attribute is inserted before the record's own properties are merged, so the
final `service.name` entry is the value of the last property whose (mapped)
key is `service.name`, not the configured name. -/
theorem convert_properties_service_name_override (r : GoogleCloudReporter)
    (props : List (String × String)) (mappings : Option (Smap String))
    (svc v : String)
    (hsvc : r.service_name = some svc)
    (hlast : lastPropValue mappings props "service.name" = some v) :
    Smap.findKV (r.convert_properties props mappings).attribute_map "service.name"
      = some (strAttr v) := by
  unfold GoogleCloudReporter.convert_properties
  rw [hsvc]
  rw [Smap.findKV_extendKV, Smap.lastV_mappedProps, hlast]
  rfl

/-- C5 (witness): with service name `"svc"` and a property `("k", "real")`
whose key maps to `service.name`, the final entry is `"real"`, not `"svc"`. -/
theorem convert_properties_service_name_override_witness :
    ((mkReporter (some "svc") none).service_name = some "svc"
      ∧ lastPropValue (some [("k", "service.name")]) [("k", "real")] "service.name"
        = some "real"
      ∧ Smap.findKV ((mkReporter (some "svc") none).convert_properties
          [("k", "real")] (some [("k", "service.name")])).attribute_map
          "service.name" = some (strAttr "real")) :=
  ⟨rfl, by decide,
    convert_properties_service_name_override (mkReporter (some "svc") none)
      [("k", "real")] (some [("k", "service.name")]) "svc" "real" rfl (by decide)⟩

/-- C6: with no service name configured, the final attribute map is exactly
the properties re-keyed through the mapping table: looking up any key `k`
returns the value of the last property whose key rewrites to `k` (a key
present in the table is replaced, an absent key passes through), and nothing
else. -/
theorem convert_properties_key_rewriting (r : GoogleCloudReporter)
    (props : List (String × String)) (mappings : Option (Smap String)) (k : String)
    (hsvc : r.service_name = none) :
    Smap.findKV (r.convert_properties props mappings).attribute_map k
      = (lastPropValue mappings props k).map strAttr :=
  findKV_convert_properties r props mappings k hsvc

/-- C6 (witness): with table `{"a.b" ↦ "x/y"}` and properties
`[("a.b","1"), ("c.d","2")]`, the map holds `"x/y" ↦ "1"` and `"c.d" ↦ "2"`
and has no `"a.b"` entry. -/
theorem convert_properties_key_rewriting_witness :
    (Smap.findKV ((mkReporter none none).convert_properties
          [("a.b", "1"), ("c.d", "2")] (some [("a.b", "x/y")])).attribute_map "x/y"
        = some (strAttr "1")
      ∧ Smap.findKV ((mkReporter none none).convert_properties
          [("a.b", "1"), ("c.d", "2")] (some [("a.b", "x/y")])).attribute_map "c.d"
        = some (strAttr "2")
      ∧ Smap.findKV ((mkReporter none none).convert_properties
          [("a.b", "1"), ("c.d", "2")] (some [("a.b", "x/y")])).attribute_map "a.b"
        = none) :=
  ⟨(convert_properties_key_rewriting (mkReporter none none)
      [("a.b", "1"), ("c.d", "2")] (some [("a.b", "x/y")]) "x/y" rfl).trans
      (by decide),
    (convert_properties_key_rewriting (mkReporter none none)
      [("a.b", "1"), ("c.d", "2")] (some [("a.b", "x/y")]) "c.d" rfl).trans
      (by decide),
    (convert_properties_key_rewriting (mkReporter none none)
      [("a.b", "1"), ("c.d", "2")] (some [("a.b", "x/y")]) "a.b" rfl).trans
      (by decide)⟩
